import Mathlib

/-!
Verification of the session layer in `src/mcp_agent/mcp/gen_client.py`
(class `MCPAgentClientSession`): the receive loop, request dispatch,
the sampling interceptor, `initialize`, and the `send_request` /
`send_notification` overrides, shallowly embedded as executable Lean
definitions with the external collaborators (transport, upstream
session, fallback provider, base-class methods) passed in as function
parameters.
-/

namespace MCPAgent

/-- Shallow model of a Python exception value as observed by an
`except Exception as e` handler: `kind` is the exception class name and
`message` is what `str(e)` yields. -/
structure Exn where
  kind : String
  message : String
deriving DecidableEq, Repr

/-- Content of a sampling message (`m.content` in the source): either a
`TextContent` (which has a `.text` attribute) or an image-style content
(which has a `.data` attribute and no `.text`). -/
inductive MessageContent where
  | text (t : String)
  | image (data : String)
deriving DecidableEq, Repr

/-- One entry of `params.messages` of a `CreateMessageRequest`. -/
structure SamplingMessage where
  role : String
  content : MessageContent
deriving DecidableEq, Repr

/-- Fields of `CreateMessageRequestParams` read by
`handle_sampling_request`.  The pydantic model always carries the
optional attributes (possibly as `None`), so each `getattr(params, name,
default)` in the source returns the attribute itself and the literal
default is dead; the optional fields are therefore `Option`s here. -/
structure CreateMessageRequestParams where
  messages : List SamplingMessage
  maxTokens : Nat
  systemPrompt : Option String
  temperature : Option ℚ
  stopSequences : Option (List String)
deriving DecidableEq, Repr

/-- The `ServerRequest` root union (`PingRequest` / `CreateMessageRequest`
/ `ListRootsRequest`); a `CreateMessageRequest` is determined by its
params since its method field is the fixed sampling method. -/
inductive ServerReq where
  | createMessage (params : CreateMessageRequestParams)
  | ping
  | listRoots
deriving DecidableEq, Repr

/-- The `CreateMessageResult` fields produced or relayed by
`handle_sampling_request`. -/
structure CreateMessageResult where
  model : String
  role : String
  content : MessageContent
deriving DecidableEq, Repr

/-- One keyword-argument record of the `client.messages.create(...)` call
made by the fallback branch of `handle_sampling_request`. -/
structure AnthropicMessage where
  role : String
  content : String
deriving DecidableEq, Repr

/-- The argument record of `client.messages.create(...)` in the fallback
branch. -/
structure AnthropicArgs where
  model : String
  maxTokens : Nat
  messages : List AnthropicMessage
  system : Option String
  temperature : Option ℚ
  stopSequences : Option (List String)
deriving DecidableEq, Repr

/-- One content block of an Anthropic API response; the source reads
`response.content[0].text`. -/
structure AnthropicBlock where
  text : String
deriving DecidableEq, Repr

/-- The Anthropic API response object as used by the source: only its
`content` list is read. -/
structure AnthropicResponse where
  content : List AnthropicBlock
deriving DecidableEq, Repr

/-- The `ErrorData` shape `\x7bcode, message\x7d` of an error reply. -/
structure ErrorData where
  code : Int
  message : String
deriving DecidableEq, Repr

/-- Outcome of an upstream `session.send_request` call as seen by the
caller of the black-box upstream session: either a result, or a raised
`McpError` reflecting an error reply from the remote peer (its `str()` is
the error message per the library and spec section 4.1 `RemoteError`),
or some other raised exception (timeout, transport failure, ...). -/
inductive UpstreamOutcome where
  | success (result : CreateMessageResult)
  | errorReply (error : ErrorData)
  | failure (e : Exn)
deriving DecidableEq, Repr

/-- Terminal reply recorded through the responder: either a result
(`responder.respond(result)` / `responder.send_result(result)`) or an
error (`responder.respond(ErrorData(...))` / `responder.send_error(...)`). -/
inductive SamplingOutcome where
  | respondResult (result : CreateMessageResult)
  | respondError (code : Int) (message : String)
deriving DecidableEq, Repr

/-- Observable effects of one `handle_sampling_request` run: the request
forwarded to the upstream session (when any) and the reply sent through
the responder. -/
structure SamplingTrace where
  forwardedUpstream : Option ServerReq
  reply : SamplingOutcome
deriving DecidableEq, Repr

/-- The model name hardcoded in the fallback branch. -/
def anthropicModelName : String := "claude-3-sonnet-20240229"

/-- Conversion of one sampling message to an Anthropic API message, as in
the list comprehension of the source: `m.content.text` when the content
has a `.text` attribute, else `m.content.data`. -/
def toAnthropicMessage (m : SamplingMessage) : AnthropicMessage :=
  { role := m.role
    content :=
      match m.content with
      | MessageContent.text t => t
      | MessageContent.image d => d }

/-- The argument record passed to `client.messages.create(...)` by the
fallback branch for the given request params. -/
def anthropicArgs (params : CreateMessageRequestParams) : AnthropicArgs :=
  { model := anthropicModelName
    maxTokens := params.maxTokens
    messages := params.messages.map toAnthropicMessage
    system := params.systemPrompt
    temperature := params.temperature
    stopSequences := params.stopSequences }

/-- Embedding of `MCPAgentClientSession.handle_sampling_request`.  The
upstream session (`ctx.upstream_session`, possibly absent) is a function
from the forwarded request to its outcome; the Anthropic client call is
a function from its argument record to a response or a raised exception.
When no upstream session is configured, the fallback branch calls the
client inside a `try`; any exception (including the `IndexError` raised
by `response.content[0]` on an empty content list, whose `str()` is
"list index out of range") is answered with
`responder.respond(ErrorData(code=-32603, message=str(e)))`.  When an
upstream session is configured, the request is wrapped unchanged in
`ServerRequest(request)` and forwarded; on success the result is passed
back verbatim, and on any exception the responder gets
`send_error(code=-32603, message=str(e))`. -/
def handle_sampling_request
    (upstream_session : Option (ServerReq → UpstreamOutcome))
    (client : AnthropicArgs → Except Exn AnthropicResponse)
    (request : CreateMessageRequestParams) : SamplingTrace :=
  match upstream_session with
  | none =>
    { forwardedUpstream := none
      reply :=
        match client (anthropicArgs request) with
        | Except.error e => SamplingOutcome.respondError (-32603) e.message
        | Except.ok response =>
          match response.content with
          | [] => SamplingOutcome.respondError (-32603) "list index out of range"
          | block :: _ =>
            SamplingOutcome.respondResult
              { model := anthropicModelName
                role := "assistant"
                content := MessageContent.text block.text } }
  | some session =>
    { forwardedUpstream := some (ServerReq.createMessage request)
      reply :=
        match session (ServerReq.createMessage request) with
        | UpstreamOutcome.success result => SamplingOutcome.respondResult result
        | UpstreamOutcome.errorReply err =>
          SamplingOutcome.respondError (-32603) err.message
        | UpstreamOutcome.failure e =>
          SamplingOutcome.respondError (-32603) e.message }

/-- Which handler `_received_request` hands an inbound request to:
`handle_sampling_request` (with an early `return`) or the generic
`super()._received_request`. -/
inductive Dispatch where
  | samplingHandler (params : CreateMessageRequestParams)
  | genericHandler (request : ServerReq)
deriving DecidableEq, Repr

/-- Embedding of the dispatch in `MCPAgentClientSession._received_request`:
`if isinstance(request, CreateMessageRequest): return await
self.handle_sampling_request(...)` else `await
super()._received_request(responder)`. -/
def received_request_dispatch : ServerReq → Dispatch
  | ServerReq.createMessage params => Dispatch.samplingHandler params
  | r => Dispatch.genericHandler r

/-- The root of a response-side `JSONRPCMessage` (`else` branch of the
receive loop): a `JSONRPCResponse` with a result or a `JSONRPCError` with
an error object; both carry the id of the request they answer. -/
inductive RespRoot where
  | result (id : Nat) (result : String)
  | error (id : Nat) (code : Int) (message : String)
deriving DecidableEq, Repr

/-- Reads `message.root.id` of a response-side message. -/
def RespRoot.rid : RespRoot → Nat
  | RespRoot.result i _ => i
  | RespRoot.error i _ _ => i

/-- One item read from `self._read_stream` by the receive loop: an
`Exception` (decode failure surfaced by the transport), a message whose
root is a `JSONRPCRequest`, one whose root is a `JSONRPCNotification`,
or a response-side message. -/
inductive ReadMessage where
  | exn (e : Exn)
  | request (id : Nat) (request : ServerReq)
  | notification (method : String)
  | response (root : RespRoot)
deriving DecidableEq, Repr

/-- A `RequestResponder` as forwarded by the receive loop: the request id,
the validated request, and the `_responded` flag. -/
structure Responder where
  requestId : Nat
  request : ServerReq
  responded : Bool
deriving DecidableEq, Repr

/-- One item written to `self._incoming_message_stream_writer`: a
forwarded exception, an unanswered responder, a notification, or the
`RuntimeError` synthesized for a response with an unknown request id. -/
inductive Incoming where
  | exn (e : Exn)
  | responder (r : Responder)
  | notif (method : String)
  | unknownId (root : RespRoot)
deriving DecidableEq, Repr

/-- State the receive loop acts on: the keys of the correlation table
`self._response_streams` (each key owns one pending result stream), the
log of payloads delivered into those streams as pairs of the key popped
and the `message.root` sent (`stream.send(message.root)`), and the items
written to the incoming message stream, in order. -/
structure LoopState where
  tableIds : List Nat
  slotContents : List (Nat × RespRoot)
  incoming : List Incoming
deriving DecidableEq, Repr

/-- Embedding of one iteration of `MCPAgentClientSession._receive_loop`.
The inbound-request hook `self._received_request` is a parameter giving,
for each request, whether the hook replied before returning (the state of
`responder._responded` afterwards); when it has not replied, the
responder is forwarded to the incoming stream.  A notification is handed
to `self._received_notification` (an observation that returns, with no
effect on this state) and then forwarded.  A response-side message pops
its id from `self._response_streams`; when the id is present the popped
stream receives `message.root`, and otherwise a `RuntimeError` about an
unknown request id is forwarded. -/
def receiveStep (hookResponded : Nat → ServerReq → Bool)
    (st : LoopState) : ReadMessage → LoopState
  | ReadMessage.exn e => { st with incoming := st.incoming ++ [Incoming.exn e] }
  | ReadMessage.request id req =>
    if hookResponded id req then st
    else
      { st with incoming :=
          st.incoming ++ [Incoming.responder ⟨id, req, false⟩] }
  | ReadMessage.notification m =>
    { st with incoming := st.incoming ++ [Incoming.notif m] }
  | ReadMessage.response root =>
    if root.rid ∈ st.tableIds then
      { st with
          tableIds := st.tableIds.erase root.rid
          slotContents := st.slotContents ++ [(root.rid, root)] }
    else
      { st with incoming := st.incoming ++ [Incoming.unknownId root] }

/-- The receive loop over a finite prefix of the read stream: `async for
message in self._read_stream` folds `receiveStep` over the messages. -/
def receiveLoop (hookResponded : Nat → ServerReq → Bool)
    (st : LoopState) (msgs : List ReadMessage) : LoopState :=
  msgs.foldl (receiveStep hookResponded) st

/-- Payloads delivered so far into the pending stream keyed by `i`, in
delivery order. -/
def deliveredTo (st : LoopState) (i : Nat) : List RespRoot :=
  (st.slotContents.filter (fun p => p.1 = i)).map (fun p => p.2)

/-- Embedding of `MCPAgentClientSession.initialize`: the base-class
handshake `super().initialize()` is a parameter (its normal return or the
exception it raises); the override logs and returns on success, and logs
and re-raises the same exception (`raise`) on failure. -/
def initialize_override (super_handshake : Except Exn Unit) : Except Exn Unit :=
  match super_handshake with
  | Except.ok u => Except.ok u
  | Except.error e => Except.error e

/-- Embedding of `MCPAgentClientSession.send_request`: the base
implementation `super().send_request(request, result_type)` is a
parameter; the override logs, awaits the base call, logs and returns its
result, and on exception logs and re-raises (`raise`) unchanged. -/
def send_request {α β : Type} (super_send_request : α → Except Exn β)
    (request : α) : Except Exn β :=
  match super_send_request request with
  | Except.ok result => Except.ok result
  | Except.error e => Except.error e

/-- Embedding of `MCPAgentClientSession.send_notification`: the base
implementation is a parameter; the override logs, returns what the base
call returns, and on exception logs and re-raises unchanged. -/
def send_notification {α : Type} (super_send_notification : α → Except Exn Unit)
    (notification : α) : Except Exn Unit :=
  match super_send_notification notification with
  | Except.ok u => Except.ok u
  | Except.error e => Except.error e

/-- Specification-side counterpart for the refinement claim: the override
behaves as the base `ClientSession.send_request` itself, returning its
value and propagating its exception unchanged. -/
def send_request_spec {α β : Type} (super_send_request : α → Except Exn β)
    (request : α) : Except Exn β :=
  super_send_request request

/-- Specification-side counterpart for the refinement claim: the override
behaves as the base `ClientSession.send_notification` itself. -/
def send_notification_spec {α : Type}
    (super_send_notification : α → Except Exn Unit)
    (notification : α) : Except Exn Unit :=
  super_send_notification notification

/-! Theorems about the embedded program. -/

/-- C3: an inbound request dispatched by `_received_request` is routed to
`handle_sampling_request` if and only if it is a `CreateMessageRequest`,
in which case the generic inbound-request handler is not invoked for it;
every other request kind is passed to the generic handler. -/
theorem C3_received_request_routing (r : ServerReq) :
    ((∃ p, r = ServerReq.createMessage p) ↔
      (∃ p, received_request_dispatch r = Dispatch.samplingHandler p))
    ∧ (∀ p, r = ServerReq.createMessage p →
        received_request_dispatch r = Dispatch.samplingHandler p)
    ∧ ((∀ p, r ≠ ServerReq.createMessage p) →
        received_request_dispatch r = Dispatch.genericHandler r)
    ∧ (∀ p q, ¬(received_request_dispatch r = Dispatch.samplingHandler p ∧
        received_request_dispatch r = Dispatch.genericHandler q)) := by
  cases r <;> simp [received_request_dispatch]

/-- C4: with no upstream session configured, when the fallback provider
call fails with any exception, the responder receives an error with the
fixed code -32603 and the stringified cause as its message. -/
theorem C4_fallback_failure_minus32603
    (client : AnthropicArgs → Except Exn AnthropicResponse)
    (params : CreateMessageRequestParams) (e : Exn)
    (hcall : client (anthropicArgs params) = Except.error e) :
    (handle_sampling_request none client params).reply =
      SamplingOutcome.respondError (-32603) e.message := by
  simp [handle_sampling_request, hcall]

/-- Witness for C4 at a concrete failing provider and request. -/
theorem C4_fallback_failure_minus32603_witness :
    (fun _ : AnthropicArgs =>
        (Except.error ⟨"RuntimeError", "boom"⟩ : Except Exn AnthropicResponse))
      (anthropicArgs ⟨[], 16, none, none, none⟩) =
        Except.error ⟨"RuntimeError", "boom"⟩
    ∧ (handle_sampling_request none
        (fun _ => Except.error ⟨"RuntimeError", "boom"⟩)
        ⟨[], 16, none, none, none⟩).reply =
      SamplingOutcome.respondError (-32603) "boom" :=
  ⟨rfl, C4_fallback_failure_minus32603
    (fun _ => Except.error ⟨"RuntimeError", "boom"⟩)
    ⟨[], 16, none, none, none⟩ ⟨"RuntimeError", "boom"⟩ rfl⟩

/-- C5: with no upstream session configured, when the fallback provider
succeeds (with at least one content block, which is what carries the
output text the source reads as `response.content[0].text`), the
responder receives a completion result whose role is "assistant" and
whose content is a text block carrying the provider output text. -/
theorem C5_fallback_success_result
    (client : AnthropicArgs → Except Exn AnthropicResponse)
    (params : CreateMessageRequestParams)
    (response : AnthropicResponse) (block : AnthropicBlock)
    (rest : List AnthropicBlock)
    (hcall : client (anthropicArgs params) = Except.ok response)
    (hcontent : response.content = block :: rest) :
    (handle_sampling_request none client params).reply =
      SamplingOutcome.respondResult
        { model := anthropicModelName
          role := "assistant"
          content := MessageContent.text block.text } := by
  simp [handle_sampling_request, hcall, hcontent]

/-- Witness for C5 at a concrete provider returning "Hello". -/
theorem C5_fallback_success_result_witness :
    (fun _ : AnthropicArgs =>
        (Except.ok ⟨[⟨"Hello"⟩]⟩ : Except Exn AnthropicResponse))
      (anthropicArgs ⟨[], 16, none, none, none⟩) =
        Except.ok ⟨[⟨"Hello"⟩]⟩
    ∧ (AnthropicResponse.mk [⟨"Hello"⟩]).content = [⟨"Hello"⟩]
    ∧ (handle_sampling_request none
        (fun _ => Except.ok ⟨[⟨"Hello"⟩]⟩)
        ⟨[], 16, none, none, none⟩).reply =
      SamplingOutcome.respondResult
        { model := anthropicModelName
          role := "assistant"
          content := MessageContent.text "Hello" } :=
  ⟨rfl, rfl, C5_fallback_success_result
    (fun _ => Except.ok ⟨[⟨"Hello"⟩]⟩)
    ⟨[], 16, none, none, none⟩ ⟨[⟨"Hello"⟩]⟩ ⟨"Hello"⟩ [] rfl rfl⟩

/-- C2 counterexample: with an upstream session configured that answers
the forwarded request with the error reply code -32000 and message
"boom", the original requester receives code -32603 with message "boom",
not the upstream code -32000 as the claim states: the except-branch of
the upstream path always sends the fixed code -32603. -/
theorem C2_upstream_error_code_counterexample :
    (handle_sampling_request
        (some (fun _ => UpstreamOutcome.errorReply ⟨-32000, "boom"⟩))
        (fun _ => Except.error ⟨"RuntimeError", "no client"⟩)
        ⟨[], 16, none, none, none⟩).reply =
      SamplingOutcome.respondError (-32603) "boom"
    ∧ (handle_sampling_request
        (some (fun _ => UpstreamOutcome.errorReply ⟨-32000, "boom"⟩))
        (fun _ => Except.error ⟨"RuntimeError", "no client"⟩)
        ⟨[], 16, none, none, none⟩).reply ≠
      SamplingOutcome.respondError (-32000) "boom" := by
  exact ⟨rfl, by decide⟩

/-- C2 as amended: with an upstream session configured,
`handle_sampling_request` forwards the identical request (wrapped
unchanged in `ServerRequest`) to the upstream `send_request`; on success
it relays the upstream result verbatim, and on any upstream failure it
replies with the fixed error code -32603 and the stringified failure as
message (for an upstream error reply, its message; not the upstream
error code). -/
theorem C2_amended_upstream_relay (u : ServerReq → UpstreamOutcome)
    (client : AnthropicArgs → Except Exn AnthropicResponse)
    (params : CreateMessageRequestParams) :
    (handle_sampling_request (some u) client params).forwardedUpstream =
        some (ServerReq.createMessage params)
    ∧ (∀ result, u (ServerReq.createMessage params) = UpstreamOutcome.success result →
        (handle_sampling_request (some u) client params).reply =
          SamplingOutcome.respondResult result)
    ∧ (∀ err, u (ServerReq.createMessage params) = UpstreamOutcome.errorReply err →
        (handle_sampling_request (some u) client params).reply =
          SamplingOutcome.respondError (-32603) err.message)
    ∧ (∀ e, u (ServerReq.createMessage params) = UpstreamOutcome.failure e →
        (handle_sampling_request (some u) client params).reply =
          SamplingOutcome.respondError (-32603) e.message) := by
  refine ⟨rfl, ?_, ?_, ?_⟩ <;> intro x hx <;>
    simp [handle_sampling_request, hx]

/-- C9 counterexample: when the base-class handshake fails with a
`ConnectionError` carrying message "boom", `initialize` re-raises that
same exception unchanged; the exception it raises is that original one,
whose kind is not `InitializationError`, contradicting the claim that
`initialize` raises `InitializationError` (and no `SessionClosedError`
fail-fast state is installed by the override). -/
theorem C9_initialize_counterexample :
    initialize_override (Except.error ⟨"ConnectionError", "boom"⟩) =
        Except.error ⟨"ConnectionError", "boom"⟩
    ∧ (Exn.mk "ConnectionError" "boom").kind ≠ "InitializationError" := by
  exact ⟨rfl, by decide⟩

/-- C9 as amended: if the handshake performed by `initialize` fails with
any exception, `initialize` logs and re-raises that same exception
unchanged to its caller (it is not wrapped in an `InitializationError`,
and the override adds no further state transition of its own). -/
theorem C9_amended_initialize_reraises (e : Exn) :
    initialize_override (Except.error e) = Except.error e := rfl

/-- C10: the `send_request` and `send_notification` overrides are
observationally equivalent to the base `ClientSession` implementations:
for every base behavior and input, the override returns exactly what the
base returns and propagates exactly the exception the base raises, with
no other effect. -/
theorem C10_send_overrides_equiv_base :
    (∀ (α β : Type) (base : α → Except Exn β) (request : α),
        send_request base request = send_request_spec base request)
    ∧ (∀ (α : Type) (base : α → Except Exn Unit) (notification : α),
        send_notification base notification =
          send_notification_spec base notification) := by
  constructor
  · intro α β base request
    unfold send_request send_request_spec
    cases base request <;> rfl
  · intro α base notification
    unfold send_notification send_notification_spec
    cases base notification <;> rfl

/-- One receive-loop step preserves the correlation invariant that every
payload delivered into a pending stream bears the id of that stream. -/
theorem slot_invariant_step (hook : Nat → ServerReq → Bool) (st : LoopState)
    (m : ReadMessage) (hinv : ∀ p ∈ st.slotContents, p.2.rid = p.1) :
    ∀ p ∈ (receiveStep hook st m).slotContents, p.2.rid = p.1 := by
  cases m with
  | exn e => exact hinv
  | request id req =>
    intro p hp
    refine hinv p ?_
    by_cases h : hook id req <;> simpa [receiveStep, h] using hp
  | notification n => exact hinv
  | response root =>
    by_cases h : root.rid ∈ st.tableIds
    · intro p hp
      simp [receiveStep, h] at hp
      rcases hp with hp | hp
      · exact hinv p hp
      · simp [hp]
    · simpa [receiveStep, h] using hinv

/-- The receive loop preserves the correlation invariant over any finite
sequence of transport messages, whatever their arrival order. -/
theorem slot_invariant_loop (hook : Nat → ServerReq → Bool)
    (msgs : List ReadMessage) :
    ∀ st : LoopState, (∀ p ∈ st.slotContents, p.2.rid = p.1) →
      ∀ p ∈ (receiveLoop hook st msgs).slotContents, p.2.rid = p.1 := by
  induction msgs with
  | nil => intro st h; exact h
  | cons m rest ih =>
    intro st h
    exact ih (receiveStep hook st m) (slot_invariant_step hook st m h)

/-- C1: on a `Response` or `ErrorResponse` whose id is pending in the
correlation table, the receive loop removes exactly that entry (the
entry with that id goes away, every other entry stays) and delivers the
message, which bears that id, into exactly that entry's stream, leaving
every other stream untouched; moreover over any sequence of messages in
any arrival order every delivered payload bears the id of the stream it
is delivered to, so each pending sendRequest caller receives the
response matching its own id. -/
theorem C1_response_correlation (hook : Nat → ServerReq → Bool)
    (st : LoopState) (root : RespRoot)
    (hnodup : st.tableIds.Nodup)
    (hmem : root.rid ∈ st.tableIds)
    (hinv : ∀ p ∈ st.slotContents, p.2.rid = p.1) :
    (receiveStep hook st (ReadMessage.response root)).tableIds =
        st.tableIds.erase root.rid
    ∧ root.rid ∉ (receiveStep hook st (ReadMessage.response root)).tableIds
    ∧ (∀ j ∈ st.tableIds, j ≠ root.rid →
        j ∈ (receiveStep hook st (ReadMessage.response root)).tableIds)
    ∧ (receiveStep hook st (ReadMessage.response root)).slotContents =
        st.slotContents ++ [(root.rid, root)]
    ∧ deliveredTo (receiveStep hook st (ReadMessage.response root)) root.rid =
        deliveredTo st root.rid ++ [root]
    ∧ (∀ j, j ≠ root.rid →
        deliveredTo (receiveStep hook st (ReadMessage.response root)) j =
          deliveredTo st j)
    ∧ (∀ msgs, ∀ p ∈ (receiveLoop hook st msgs).slotContents, p.2.rid = p.1) := by
  refine ⟨?_, ?_, ?_, ?_, ?_, ?_, ?_⟩
  · simp [receiveStep, hmem]
  · simp [receiveStep, hmem]
    intro hcontra
    exact (List.Nodup.mem_erase_iff hnodup).mp hcontra |>.1 rfl
  · intro j hj hne
    simp [receiveStep, hmem]
    exact (List.mem_erase_of_ne hne).mpr hj
  · simp [receiveStep, hmem]
  · simp [receiveStep, hmem, deliveredTo]
  · intro j hne
    simp [receiveStep, hmem, deliveredTo, Ne.symm hne]
  · intro msgs
    exact slot_invariant_loop hook msgs st hinv

/-- Witness for C1: table pending ids 1 and 2, response for id 2. -/
theorem C1_response_correlation_witness :
    (LoopState.mk [1, 2] [] []).tableIds.Nodup
    ∧ (RespRoot.result 2 "pong").rid ∈ (LoopState.mk [1, 2] [] []).tableIds
    ∧ ((receiveStep (fun _ _ => false) (LoopState.mk [1, 2] [] [])
          (ReadMessage.response (RespRoot.result 2 "pong"))).tableIds =
        (LoopState.mk [1, 2] [] []).tableIds.erase (RespRoot.result 2 "pong").rid
      ∧ (RespRoot.result 2 "pong").rid ∉
          (receiveStep (fun _ _ => false) (LoopState.mk [1, 2] [] [])
            (ReadMessage.response (RespRoot.result 2 "pong"))).tableIds
      ∧ (∀ j ∈ (LoopState.mk [1, 2] [] []).tableIds,
          j ≠ (RespRoot.result 2 "pong").rid →
            j ∈ (receiveStep (fun _ _ => false) (LoopState.mk [1, 2] [] [])
              (ReadMessage.response (RespRoot.result 2 "pong"))).tableIds)
      ∧ (receiveStep (fun _ _ => false) (LoopState.mk [1, 2] [] [])
            (ReadMessage.response (RespRoot.result 2 "pong"))).slotContents =
          (LoopState.mk [1, 2] [] []).slotContents ++
            [((RespRoot.result 2 "pong").rid, RespRoot.result 2 "pong")]
      ∧ deliveredTo (receiveStep (fun _ _ => false) (LoopState.mk [1, 2] [] [])
            (ReadMessage.response (RespRoot.result 2 "pong")))
            (RespRoot.result 2 "pong").rid =
          deliveredTo (LoopState.mk [1, 2] [] []) (RespRoot.result 2 "pong").rid ++
            [RespRoot.result 2 "pong"]
      ∧ (∀ j, j ≠ (RespRoot.result 2 "pong").rid →
          deliveredTo (receiveStep (fun _ _ => false) (LoopState.mk [1, 2] [] [])
              (ReadMessage.response (RespRoot.result 2 "pong"))) j =
            deliveredTo (LoopState.mk [1, 2] [] []) j)
      ∧ (∀ msgs, ∀ p ∈ (receiveLoop (fun _ _ => false)
            (LoopState.mk [1, 2] [] []) msgs).slotContents, p.2.rid = p.1)) :=
  ⟨by decide, by decide,
    C1_response_correlation (fun _ _ => false) (LoopState.mk [1, 2] [] [])
      (RespRoot.result 2 "pong") (by decide) (by decide) (by decide)⟩

/-- C6: on a `Response` or `ErrorResponse` whose id is not pending in the
correlation table, the receive loop forwards a protocol-error value
(the synthesized `RuntimeError` about an unknown request id) to the
inbound consumer stream, delivers nothing into any stream, leaves the
table unchanged, and continues with the next message of the read
stream. -/
theorem C6_unknown_id_protocol_error (hook : Nat → ServerReq → Bool)
    (st : LoopState) (root : RespRoot) (rest : List ReadMessage)
    (h : root.rid ∉ st.tableIds) :
    (receiveStep hook st (ReadMessage.response root)).incoming =
        st.incoming ++ [Incoming.unknownId root]
    ∧ (receiveStep hook st (ReadMessage.response root)).tableIds = st.tableIds
    ∧ (receiveStep hook st (ReadMessage.response root)).slotContents =
        st.slotContents
    ∧ receiveLoop hook st (ReadMessage.response root :: rest) =
        receiveLoop hook (receiveStep hook st (ReadMessage.response root)) rest := by
  refine ⟨?_, ?_, ?_, rfl⟩ <;> simp [receiveStep, h]

/-- Witness for C6: empty correlation table, unsolicited response id 5,
one further message still processed by the loop. -/
theorem C6_unknown_id_protocol_error_witness :
    (RespRoot.result 5 "stale").rid ∉ (LoopState.mk [] [] []).tableIds
    ∧ ((receiveStep (fun _ _ => false) (LoopState.mk [] [] [])
          (ReadMessage.response (RespRoot.result 5 "stale"))).incoming =
        (LoopState.mk [] [] []).incoming ++
          [Incoming.unknownId (RespRoot.result 5 "stale")]
      ∧ (receiveStep (fun _ _ => false) (LoopState.mk [] [] [])
          (ReadMessage.response (RespRoot.result 5 "stale"))).tableIds =
        (LoopState.mk [] [] []).tableIds
      ∧ (receiveStep (fun _ _ => false) (LoopState.mk [] [] [])
          (ReadMessage.response (RespRoot.result 5 "stale"))).slotContents =
        (LoopState.mk [] [] []).slotContents
      ∧ receiveLoop (fun _ _ => false) (LoopState.mk [] [] [])
          (ReadMessage.response (RespRoot.result 5 "stale") ::
            [ReadMessage.notification "ping"]) =
        receiveLoop (fun _ _ => false)
          (receiveStep (fun _ _ => false) (LoopState.mk [] [] [])
            (ReadMessage.response (RespRoot.result 5 "stale")))
          [ReadMessage.notification "ping"]) :=
  ⟨by decide,
    C6_unknown_id_protocol_error (fun _ _ => false) (LoopState.mk [] [] [])
      (RespRoot.result 5 "stale") [ReadMessage.notification "ping"] (by decide)⟩

/-- C7: on a transport decode failure (an `Exception` value read from the
read stream), the receive loop forwards that exception to the inbound
consumer stream, touches neither the correlation table nor any pending
stream, and continues with the next message of the read stream. -/
theorem C7_decode_failure_forwarded (hook : Nat → ServerReq → Bool)
    (st : LoopState) (e : Exn) (rest : List ReadMessage) :
    (receiveStep hook st (ReadMessage.exn e)).incoming =
        st.incoming ++ [Incoming.exn e]
    ∧ (receiveStep hook st (ReadMessage.exn e)).tableIds = st.tableIds
    ∧ (receiveStep hook st (ReadMessage.exn e)).slotContents = st.slotContents
    ∧ receiveLoop hook st (ReadMessage.exn e :: rest) =
        receiveLoop hook (receiveStep hook st (ReadMessage.exn e)) rest :=
  ⟨rfl, rfl, rfl, rfl⟩

/-- C8: after the inbound-request hook returns, the receive loop hands the
responder to the inbound consumer stream exactly when the hook has not
already replied: when the responded flag is still false the responder is
appended to the consumer stream, when the hook replied the consumer
stream is left unchanged, and the appended shape only arises from an
unanswered hook; the correlation table and pending streams are never
touched by a request. -/
theorem C8_responder_forwarded_iff_unanswered (hook : Nat → ServerReq → Bool)
    (st : LoopState) (id : Nat) (req : ServerReq) :
    (hook id req = false →
        (receiveStep hook st (ReadMessage.request id req)).incoming =
          st.incoming ++ [Incoming.responder ⟨id, req, false⟩])
    ∧ (hook id req = true →
        (receiveStep hook st (ReadMessage.request id req)).incoming =
          st.incoming)
    ∧ ((receiveStep hook st (ReadMessage.request id req)).incoming =
          st.incoming ++ [Incoming.responder ⟨id, req, false⟩] →
        hook id req = false)
    ∧ (receiveStep hook st (ReadMessage.request id req)).tableIds = st.tableIds
    ∧ (receiveStep hook st (ReadMessage.request id req)).slotContents =
        st.slotContents := by
  by_cases h : hook id req <;> simp [receiveStep, h]

/-- Witness for C8 at a hook that does not reply. -/
theorem C8_responder_forwarded_iff_unanswered_witness :
    (((fun _ _ => false) : Nat → ServerReq → Bool) 7 ServerReq.ping = false →
        (receiveStep (fun _ _ => false) (LoopState.mk [] [] [])
          (ReadMessage.request 7 ServerReq.ping)).incoming =
          (LoopState.mk [] [] []).incoming ++
            [Incoming.responder ⟨7, ServerReq.ping, false⟩])
    ∧ (((fun _ _ => false) : Nat → ServerReq → Bool) 7 ServerReq.ping = true →
        (receiveStep (fun _ _ => false) (LoopState.mk [] [] [])
          (ReadMessage.request 7 ServerReq.ping)).incoming =
          (LoopState.mk [] [] []).incoming)
    ∧ ((receiveStep (fun _ _ => false) (LoopState.mk [] [] [])
          (ReadMessage.request 7 ServerReq.ping)).incoming =
          (LoopState.mk [] [] []).incoming ++
            [Incoming.responder ⟨7, ServerReq.ping, false⟩] →
        ((fun _ _ => false) : Nat → ServerReq → Bool) 7 ServerReq.ping = false)
    ∧ (receiveStep (fun _ _ => false) (LoopState.mk [] [] [])
        (ReadMessage.request 7 ServerReq.ping)).tableIds =
        (LoopState.mk [] [] []).tableIds
    ∧ (receiveStep (fun _ _ => false) (LoopState.mk [] [] [])
        (ReadMessage.request 7 ServerReq.ping)).slotContents =
        (LoopState.mk [] [] []).slotContents :=
  C8_responder_forwarded_iff_unanswered (fun _ _ => false)
    (LoopState.mk [] [] []) 7 ServerReq.ping

end MCPAgent
